import Mathlib

/-!
# Verification of the AR furniture-placement script (`src/js/app.js`)

A shallow embedding, in Lean 4, of the behaviourally relevant parts of
`src/js/app.js` from the `Ar_onlineshop` repository, together with theorems
settling the specification's claims about it.

Modelling conventions:

* The rendering engine (three.js) and the browser's WebXR subsystem are
  external collaborators.  Their data that the script merely copies around
  (matrix elements, poses) is modelled with exact integers, since none of the
  script's logic performs arithmetic on them — it only copies and compares.
* JavaScript's single-threaded event loop is modelled as an explicit trace of
  events (`PCEvent`): animation-frame callbacks, resolutions of pending
  promises, controller `select` events, and session `end` events.  An `async`
  function is split at its `await`s: its synchronous prefix runs at the
  invocation event, its continuation runs at a later resolution event.
* Mutable closure variables (`hitTestSourceRequested`, `hitTestSource`,
  `chair`, `currentSession`, …) become fields of explicit state records.
-/

namespace ArShop

/-- A three.js `Vector3` with exact components (the script only copies
components, never computes with them). -/
structure Vector3 where
  x : Int
  y : Int
  z : Int
  deriving DecidableEq

/-- A three.js `Matrix4`: the 16-entry column-major `elements` array. -/
def Matrix4 : Type := Fin 16 → Int

instance : DecidableEq Matrix4 :=
  inferInstanceAs (DecidableEq (Fin 16 → Int))

/-- `Vector3.setFromMatrixPosition(m)`: reads the translation column of the
column-major 4x4 matrix, i.e. `elements[12..14]` (three.js semantics). -/
def setFromMatrixPosition (m : Matrix4) : Vector3 :=
  ⟨m 12, m 13, m 14⟩

/-- A three.js `Object3D` as far as the script manipulates one: a transform
(position / rotation / scale), a visibility flag and the raw `matrix`
element array (written directly for the reticle). -/
structure Object3D where
  position : Vector3
  rotation : Vector3
  scale : Vector3
  visible : Bool
  matrix : Matrix4
  deriving DecidableEq

/-- A WebXR `XRRigidTransform`: the script reads only its `matrix` array. -/
structure XRRigidTransform where
  matrix : Matrix4
  deriving DecidableEq

/-- A WebXR `XRPose` as consumed by the script (`pose.transform.matrix`). -/
structure XRPose where
  transform : XRRigidTransform
  deriving DecidableEq

/-- A WebXR hit-test result; `getPose(referenceSpace)` is modelled as the pose
the browser computed for this result in the session's reference space. -/
structure XRHitTestResult where
  pose : XRPose
  deriving DecidableEq

/-- A WebXR `XRFrame`, restricted to what `app.js` queries from it:
`frame.getHitTestResults(hitTestSource)`, the list of surface intersections
for the session's (single) hit-test source on this frame. -/
structure XRFrame where
  hitTestResults : List XRHitTestResult
  deriving DecidableEq

/-- JavaScript exceptions that the script can observe or raise. -/
inductive JsError where
  | referenceError (ident : String)
  | loadError (msg : String)
  deriving DecidableEq

/-- State of the `setupXR` closure (`app.js` lines 61–130): the mutable
closure variables `hitTestSourceRequested`, `hitTestSource`, `chair`, the
`reticle` parameter's object, and — for the claims about framing — the other
objects in the scene, which `setupXR`'s handlers never touch.

`pendingAcquisitions` counts invocations of the async `requestHitTestSource`
whose `await`s have not yet resolved, and `hitTestSourceRequests` counts its
invocations in total; both are event-loop bookkeeping with no counterpart
variable in the source. -/
structure PCState where
  hitTestSourceRequested : Bool
  hitTestSource : Option Nat
  chair : Option Object3D
  reticle : Object3D
  otherSceneObjects : List Object3D
  pendingAcquisitions : Nat
  hitTestSourceRequests : Nat
  deriving DecidableEq

/-- `onSelect` (`app.js` lines 78–83):
if `chair && reticle.visible`, copy the translation of `reticle.matrix` into
`chair.position` and set `chair.visible = true`; otherwise do nothing. -/
def onSelect (s : PCState) : PCState :=
  match s.chair with
  | some c =>
      if s.reticle.visible then
        { s with chair := some { c with
            position := setFromMatrixPosition s.reticle.matrix,
            visible := true } }
      else s
  | none => s

/-- Synchronous prefix of the async `requestHitTestSource` (`app.js` lines
89–100): the body reads the session and then suspends at
`await session.requestReferenceSpace('viewer')`.  Nothing observable is
written before that first `await`; in particular `hitTestSourceRequested` is
NOT set here — it is assigned only at the very end of the async body. -/
def requestHitTestSourceStart (s : PCState) : PCState :=
  { s with pendingAcquisitions := s.pendingAcquisitions + 1,
           hitTestSourceRequests := s.hitTestSourceRequests + 1 }

/-- Continuation of `requestHitTestSource` after both `await`s resolve
(`app.js` lines 92–99): store the granted hit-test source, attach the
session `end` listener that resets the two flags, and finally set
`hitTestSourceRequested = true`. -/
def requestHitTestSourceResume (src : Nat) (s : PCState) : PCState :=
  { s with pendingAcquisitions := s.pendingAcquisitions - 1,
           hitTestSource := some src,
           hitTestSourceRequested := true }

/-- `getHitTestResults` (`app.js` lines 102–115): with no hit-test source the
function returns immediately; otherwise a non-empty result list makes the
reticle visible and overwrites `reticle.matrix` with the first result's pose
matrix (`reticle.matrix.fromArray(pose.transform.matrix)`), and an empty list
hides the reticle. -/
def getHitTestResults (frame : XRFrame) (s : PCState) : PCState :=
  match s.hitTestSource with
  | none => s
  | some _ =>
      match frame.hitTestResults with
      | r :: _ =>
          { s with reticle := { s.reticle with
              visible := true,
              matrix := r.pose.transform.matrix } }
      | [] =>
          { s with reticle := { s.reticle with visible := false } }

/-- Identifiers bound at module scope of `app.js` (imports lines 1–4, consts
lines 6–8, arrow-function consts lines 10–212). -/
def moduleScope : List String :=
  ["THREE", "GLTFLoader", "RGBELoader", "LoadingBar",
   "assetsPath", "hdrPath", "reticlePath",
   "initScene", "initCamera", "initRenderer", "setEnvironment",
   "loadReticle", "setupXR", "loadChair", "initAR", "initApp"]

/-- Identifiers bound in `setupXR`'s scope (`app.js` lines 61–130): its
parameters and its local `let`/`const` declarations. -/
def setupXRScope : List String :=
  ["renderer", "scene", "reticle",
   "hitTestSourceRequested", "hitTestSource", "chair",
   "onSelect", "controller", "requestHitTestSource", "getHitTestResults",
   "render"]

/-- Identifiers bound locally inside `render` itself: its two parameters. -/
def renderLocalScope : List String :=
  ["timestamp", "frame"]

/-- The full scope chain visible from the body of `render` (`app.js` lines
117–127): its own parameters, then `setupXR`'s scope, then module scope.
`app.js` is an ES module, hence strict mode: an identifier not in this chain
(and not a DOM global) throws a `ReferenceError` when evaluated. -/
def renderScopeChain : List String :=
  renderLocalScope ++ setupXRScope ++ moduleScope

/-- Identifiers bound locally inside `initApp` (`app.js` lines 185–212) —
in particular `camera`, which is NOT visible from `setupXR`. -/
def initAppLocals : List String :=
  ["container", "scene", "camera", "renderer", "reticle", "render",
   "setChair", "chairId", "chair"]

/-- Strict-mode identifier lookup: a hit yields the value's evaluation, a miss
throws a `ReferenceError` naming the identifier. -/
def resolveIdent (env : List String) (ident : String) : Except JsError Unit :=
  if ident ∈ env then Except.ok () else Except.error (.referenceError ident)

/-- `render` (`app.js` lines 117–127), one invocation of the per-frame
callback: (1) if an XR frame is supplied and the latch is unset, invoke the
async `requestHitTestSource` (only its synchronous prefix runs now); (2) if an
XR frame is supplied, run `getHitTestResults`; (3) evaluate
`renderer.render(scene, camera)` — which first resolves the free identifier
`camera` in the scope chain.  Returns the post-state together with the
outcome of step (3). -/
def render (frame : Option XRFrame) (s : PCState) : PCState × Except JsError Unit :=
  let s1 := match frame with
            | some _ => if s.hitTestSourceRequested then s else requestHitTestSourceStart s
            | none => s
  let s2 := match frame with
            | some f => getHitTestResults f s1
            | none => s1
  (s2, resolveIdent renderScopeChain "camera")

/-- Events the browser's event loop can deliver to the `setupXR` closure
while a session is active. -/
inductive PCEvent where
  | frame (f : XRFrame)
  | noFrameTick
  | acquisitionResolved (src : Nat)
  | select
  | sessionEnd
  deriving DecidableEq

/-- One event-loop step of the placement controller.  A `frame` event runs
`render` with an XR frame; `noFrameTick` runs it without one (the animation
loop before the session is bound); `acquisitionResolved` resumes a pending
`requestHitTestSource` at its first opportunity; `select` fires the
controller's `select` listener; `sessionEnd` runs the `end` listener added by
`requestHitTestSource` (a no-op if that listener was never attached, i.e. if
no acquisition ever completed). -/
def pcStep (s : PCState) : PCEvent → PCState
  | .frame f => (render (some f) s).1
  | .noFrameTick => (render none s).1
  | .acquisitionResolved src =>
      if s.pendingAcquisitions > 0 then requestHitTestSourceResume src s else s
  | .select => onSelect s
  | .sessionEnd =>
      if s.hitTestSourceRequested then
        { s with hitTestSourceRequested := false, hitTestSource := none }
      else s

/-- Run the placement controller over a trace of event-loop events. -/
def pcRun (events : List PCEvent) (s : PCState) : PCState :=
  events.foldl pcStep s

/-! ## Session lifecycle (`initAR`, `app.js` lines 149–183)

Two views of the same code, at the two granularities the claims need:

* `ARSessionCtx` / `onSessionEnded`: the closure of ONE `initAR` invocation,
  for the postconditions of the `end` handler (lines 163–175).
* `AppState` / `initAR` / `clickHandler`: a sequence of `initAR` invocations
  as triggered by `.ar-button` clicks (lines 203–211), for the toggle
  invariant and the failure propagation.  Crucially, `let currentSession =
  null` on line 150 is LOCAL to each `initAR` call, so every invocation
  starts from a fresh `null` session reference. -/

/-- Closure state of a single `initAR` invocation: its local `currentSession`,
its `chair` parameter binding, whether its `end` listener is attached to the
session, plus the shared scene contents (object ids) and the renderer's
animation-loop slot.  `scene.add` never adds the same object twice (three.js
re-parents instead), so `sceneObjects` lists each object at most once. -/
structure ARSessionCtx where
  currentSession : Option Nat
  endListenerAttached : Bool
  chair : Option Nat
  sceneObjects : List Nat
  animationLoop : Bool
  deriving DecidableEq

/-- `onSessionStarted` (`app.js` lines 154–161): attach the `end` listener,
bind the session to the renderer, and record the session reference. -/
def onSessionStarted (session : Nat) (s : ARSessionCtx) : ARSessionCtx :=
  { s with endListenerAttached := true, currentSession := some session }

/-- `onSessionEnded` (`app.js` lines 163–175): under the `if (currentSession)`
guard, detach the `end` listener, clear the session reference, remove the
chair from the scene (when one was loaded) and clear its reference, and stop
the per-frame callback via `renderer.setAnimationLoop(null)`. -/
def onSessionEnded (s : ARSessionCtx) : ARSessionCtx :=
  match s.currentSession with
  | some _ =>
      let s1 := { s with endListenerAttached := false,
                         currentSession := none }
      let s2 := match s1.chair with
                | some c => { s1 with sceneObjects := s1.sceneObjects.filter (· ≠ c),
                                      chair := none }
                | none => s1
      { s2 with animationLoop := false }
  | none => s

/-- Cross-invocation state for the click-driven session lifecycle:
`activeSessions` are the sessions the program has started and never ended
(most recent first), `sessionRequests` counts `navigator.xr.requestSession`
calls, and `endCalls` counts `currentSession.end()` calls. -/
structure AppState where
  activeSessions : List Nat
  sessionRequests : Nat
  endCalls : Nat
  deriving DecidableEq

/-- One invocation of `initAR` (`app.js` lines 149–183).  Line 150 declares
`let currentSession = null` INSIDE the function, so the reference is
re-initialized to `null` on every call; the `if (currentSession === null)`
test on line 177 therefore always takes the request branch.  `requestOutcome`
is the browser's response to `navigator.xr.requestSession('immersive-ar')`:
`await` of a rejected promise rethrows, and `initAR` contains no
`try`/`catch`, so a rejection escapes the function. -/
def initAR (requestOutcome : Except JsError Nat) (g : AppState) :
    Except JsError AppState :=
  let currentSession : Option Nat := none
  match currentSession with
  | none =>
      let g1 := { g with sessionRequests := g.sessionRequests + 1 }
      match requestOutcome with
      | .ok session =>
          -- onSessionStarted: bind the session and hold the reference
          .ok { g1 with activeSessions := session :: g1.activeSessions }
      | .error e => .error e
  | some _ =>
      -- `currentSession.end()` — dead across invocations: the local starts null
      .ok { g with endCalls := g.endCalls + 1 }

/-- The `.ar-button` click handler (`app.js` lines 204–210): it invokes
`initAR(...)` with neither `await` nor `.catch`, then sets the animation
loop.  A rejection from `initAR` therefore surfaces as an unhandled promise
rejection, returned here in the second component. -/
def clickHandler (requestOutcome : Except JsError Nat) (g : AppState) :
    AppState × Option JsError :=
  match initAR requestOutcome g with
  | .ok g1 => (g1, none)
  | .error e => (g, some e)

/-! ## Asynchronous loaders (`app.js` lines 33–59 and 132–147)

Each loader is an `async` function whose single `await` is the engine's
`loadAsync`; the outcome of that fetch is the loader's input here.  A loader's
value is a `LoaderOutput`: `result` is what the `async` function's promise
does — `.ok (some v)` a returned value, `.ok none` an implicit `return
undefined`, `.error e` a propagated exception (never produced: each body
wraps its `await` in `try`/`catch`). -/

/-- Outcome of one loader call: the promise settlement, the `console.error`
log lines emitted, and the objects added to the scene. -/
structure LoaderOutput (α : Type) where
  result : Except JsError (Option α)
  log : List String
  sceneAdds : List α

/-- Marker for the environment map assigned to `scene.environment`. -/
structure EnvMap where
  sourceTexture : Nat
  deriving DecidableEq

/-- `setEnvironment` (`app.js` lines 33–46): on success assign the processed
environment map to the scene; on failure log and fall through.  The function
has no `return` statement, so its promise always settles with `undefined`.
The scene-environment assignment is reported in `sceneAdds`. -/
def setEnvironment (loadOutcome : Except JsError Nat) : LoaderOutput EnvMap :=
  match loadOutcome with
  | .ok texture =>
      { result := .ok none, log := [], sceneAdds := [⟨texture⟩] }
  | .error _ =>
      { result := .ok none,
        log := ["An error occurred setting the environment"],
        sceneAdds := [] }

/-- `loadReticle` (`app.js` lines 48–59): on success hide the loaded scene
node, add it to the scene and return it; on failure log, and fall off the end
of the function (promise settles with `undefined`). -/
def loadReticle (loadOutcome : Except JsError Object3D) : LoaderOutput Object3D :=
  match loadOutcome with
  | .ok gltfScene =>
      let reticle := { gltfScene with visible := false }
      { result := .ok (some reticle), log := [], sceneAdds := [reticle] }
  | .error _ =>
      { result := .ok none,
        log := ["An error occurred loading the reticle"],
        sceneAdds := [] }

/-- `loadChair` (`app.js` lines 132–147): show a loading bar, fetch
`chair<id>.glb`; on success hide the model, add it to the scene, hide the
loading bar and return the model; on failure log and fall off the end.
`loadingBarVisibleAfter` records the loading bar's state when the promise
settles (it is never hidden on the failure path). -/
structure ChairLoadOutput where
  toLoaderOutput : LoaderOutput Object3D
  loadingBarVisibleAfter : Bool

def loadChair (loadOutcome : Except JsError Object3D) : ChairLoadOutput :=
  match loadOutcome with
  | .ok gltfScene =>
      let chair := { gltfScene with visible := false }
      { toLoaderOutput :=
          { result := .ok (some chair), log := [], sceneAdds := [chair] },
        loadingBarVisibleAfter := false }
  | .error _ =>
      { toLoaderOutput :=
          { result := .ok none,
            log := ["An error occurred loading the chair"],
            sceneAdds := [] },
        loadingBarVisibleAfter := true }

/-! ## Concrete sample values used by witnesses and counterexamples -/

/-- The zero matrix (all 16 elements 0). -/
def mZero : Matrix4 := fun _ => 0

/-- A pose matrix with translation (1, 0, 0). -/
def mA : Matrix4 := fun i => if i = (12 : Fin 16) then 1 else 0

/-- A pose matrix with translation (2, 0, 0). -/
def mB : Matrix4 := fun i => if i = (12 : Fin 16) then 2 else 0

/-- A loaded chair model: hidden, untransformed. -/
def sampleChair : Object3D :=
  { position := ⟨0, 0, 0⟩, rotation := ⟨0, 0, 0⟩, scale := ⟨1, 1, 1⟩,
    visible := false, matrix := mZero }

/-- The reticle after a successful hit test at pose `mA`: visible. -/
def sampleReticle : Object3D :=
  { position := ⟨0, 0, 0⟩, rotation := ⟨0, 0, 0⟩, scale := ⟨1, 1, 1⟩,
    visible := true, matrix := mA }

/-- Mid-session placement-controller state: hit-test source acquired, chair
loaded, reticle visible at pose `mA`. -/
def pcSample : PCState :=
  { hitTestSourceRequested := true, hitTestSource := some 0,
    chair := some sampleChair, reticle := sampleReticle,
    otherSceneObjects := [], pendingAcquisitions := 0,
    hitTestSourceRequests := 1 }

/-- Placement-controller state at the start of a session: latch unset, no
source, no chair placed yet, reticle hidden. -/
def pcFresh : PCState :=
  { hitTestSourceRequested := false, hitTestSource := none,
    chair := some sampleChair,
    reticle := { sampleReticle with visible := false },
    otherSceneObjects := [], pendingAcquisitions := 0,
    hitTestSourceRequests := 0 }

/-- An XR frame whose hit test intersects a surface at pose `mB`. -/
def frameB : XRFrame := ⟨[⟨⟨⟨mB⟩⟩⟩]⟩

/-- An XR frame whose hit test finds no surface. -/
def frameEmpty : XRFrame := ⟨[]⟩

/-- Application state before any `.ar-button` click. -/
def appStart : AppState :=
  { activeSessions := [], sessionRequests := 0, endCalls := 0 }

/-- A concrete `initAR` closure at session end: session 1 active, listener
attached, chair 5 in a scene that also holds object 7, loop running. -/
def sampleCtx : ARSessionCtx :=
  { currentSession := some 1, endListenerAttached := true,
    chair := some 5, sceneObjects := [5, 7], animationLoop := true }

/-! ## Theorems settling the claims -/

/-- C1 — the claim fails on the code: `initAR` declares `let currentSession =
null` inside the function body (`app.js` line 150), so every click-driven
invocation starts from a fresh `null` reference and takes the
`requestSession` branch.  Concretely: a first click starts session 1; a
second click, issued while session 1 is still active, requests and starts
session 2 instead of calling `end()` on session 1 — after it, two session
references are live, two requests were issued and `end()` was never called.
The `currentSession.end()` toggle branch (line 181) is unreachable across
invocations. -/
theorem initAR_second_click_starts_second_session :
    initAR (.ok 1) appStart =
      .ok { activeSessions := [1], sessionRequests := 1, endCalls := 0 } ∧
    initAR (.ok 2) { activeSessions := [1], sessionRequests := 1, endCalls := 0 } =
      .ok { activeSessions := [2, 1], sessionRequests := 2, endCalls := 0 } :=
  ⟨rfl, rfl⟩

/-- C2 — the claim fails on the code: the `hitTestSourceRequested` latch is
assigned only at the END of the async `requestHitTestSource` (`app.js` line
99), after two `await`s.  If a second XR frame is delivered before those
promises resolve, the frame's `!hitTestSourceRequested` check (line 118)
still sees `false` and invokes `requestHitTestSource` again: the trace
`[frame, frame]` with no intervening resolution yields two invocations
within one session (no session end occurs in the trace).  For contrast, when
the acquisition resolves before the next frame, the latch does hold the
count at one. -/
theorem requestHitTestSource_invoked_twice_in_one_session :
    (pcRun [.frame frameEmpty, .frame frameEmpty] pcFresh).hitTestSourceRequests
      = 2 ∧
    (pcRun [.frame frameEmpty, .acquisitionResolved 0, .frame frameEmpty]
        pcFresh).hitTestSourceRequests = 1 :=
  ⟨rfl, rfl⟩

/-- C3 — confirmed: whenever the `end` handler `onSessionEnded` runs with a
held session reference (which is the case at every session end, since the
handler is attached only in `onSessionStarted` after the reference is about
to be set, and detaches itself when it runs), it clears the session
reference, stops the per-frame callback, detaches the `end` listener, and
removes the loaded chair from the scene. -/
theorem onSessionEnded_postconditions (s : ARSessionCtx) (sess : Nat)
    (h : s.currentSession = some sess) :
    (onSessionEnded s).currentSession = none ∧
    (onSessionEnded s).animationLoop = false ∧
    (onSessionEnded s).endListenerAttached = false ∧
    ∀ c, s.chair = some c → c ∉ (onSessionEnded s).sceneObjects := by
  unfold onSessionEnded
  rw [h]
  cases hch : s.chair with
  | none => simp [hch]
  | some c =>
      refine ⟨by simp, by simp, by simp, ?_⟩
      intro c0 hc0
      cases hc0
      simp [List.mem_filter]

/-- C3 witness: the postconditions at a concrete session-end state. -/
theorem onSessionEnded_postconditions_check :
    (onSessionEnded sampleCtx).currentSession = none ∧
    (onSessionEnded sampleCtx).animationLoop = false ∧
    (onSessionEnded sampleCtx).endListenerAttached = false ∧
    (5 : Nat) ∉ (onSessionEnded sampleCtx).sceneObjects := by
  obtain ⟨h1, h2, h3, h4⟩ := onSessionEnded_postconditions sampleCtx 1 rfl
  exact ⟨h1, h2, h3, h4 5 rfl⟩

/-- C4 — confirmed: a `select` event places the chair (position copied from
the translation of the reticle's matrix, visibility set) exactly when both
the chair reference is set and the reticle is visible; when either
precondition fails, `onSelect` leaves the whole state unchanged. -/
theorem onSelect_placement_iff (s : PCState) :
    (∀ c, s.chair = some c → s.reticle.visible = true →
        (onSelect s).chair = some { c with
          position := setFromMatrixPosition s.reticle.matrix,
          visible := true }) ∧
    (s.chair = none ∨ s.reticle.visible = false → onSelect s = s) := by
  constructor
  · intro c hc hv
    simp [onSelect, hc, hv]
  · intro hpre
    rcases hpre with hc | hv
    · simp [onSelect, hc]
    · cases hch : s.chair with
      | none => simp [onSelect, hch]
      | some c => simp [onSelect, hch, hv]

/-- C4 witness: placement happens at `pcSample` (both preconditions hold) and
nothing happens once the reticle is hidden. -/
theorem onSelect_placement_iff_check :
    (onSelect pcSample).chair = some { sampleChair with
      position := setFromMatrixPosition pcSample.reticle.matrix,
      visible := true } ∧
    onSelect { pcSample with reticle := { sampleReticle with visible := false } }
      = { pcSample with reticle := { sampleReticle with visible := false } } :=
  ⟨(onSelect_placement_iff pcSample).1 sampleChair rfl rfl,
   (onSelect_placement_iff _).2 (Or.inr rfl)⟩

/-- C5 — confirmed: after `getHitTestResults` runs with a non-null hit-test
source, the reticle is visible iff the frame's result list is non-empty; on a
non-empty list its matrix is the first result's pose matrix, and on an empty
list it is hidden. -/
theorem getHitTestResults_marker_visibility (s : PCState) (src : Nat)
    (h : s.hitTestSource = some src) (f : XRFrame) :
    ((getHitTestResults f s).reticle.visible = true ↔ f.hitTestResults ≠ []) ∧
    (∀ r rs, f.hitTestResults = r :: rs →
        (getHitTestResults f s).reticle.matrix = r.pose.transform.matrix) ∧
    (f.hitTestResults = [] → (getHitTestResults f s).reticle.visible = false) := by
  unfold getHitTestResults
  rw [h]
  cases hr : f.hitTestResults with
  | nil => simp
  | cons r rs =>
      refine ⟨by simp, ?_, by simp⟩
      intro r0 rs0 h0
      cases h0
      simp

/-- C5 witness: at `pcSample` (source held), a one-result frame shows the
reticle at that pose and an empty frame hides it. -/
theorem getHitTestResults_marker_visibility_check :
    ((getHitTestResults frameB pcSample).reticle.visible = true ↔
        frameB.hitTestResults ≠ []) ∧
    (getHitTestResults frameB pcSample).reticle.matrix = mB ∧
    (getHitTestResults frameEmpty pcSample).reticle.visible = false := by
  obtain ⟨h1, h2, _⟩ := getHitTestResults_marker_visibility pcSample 0 rfl frameB
  obtain ⟨_, _, g3⟩ := getHitTestResults_marker_visibility pcSample 0 rfl frameEmpty
  exact ⟨h1, h2 ⟨⟨⟨mB⟩⟩⟩ [] rfl, g3 rfl⟩

/-- C6 — confirmed: `renderer.render(scene, camera)` on `app.js` line 126
evaluates the free identifier `camera`, which is bound in no scope enclosing
`setupXR` — it is a local of `initApp` (line 190) and is not passed in — so
every invocation of the per-frame callback ends in a `ReferenceError` instead
of rendering the scene. -/
theorem render_camera_reference_error :
    "camera" ∉ renderScopeChain ∧
    "camera" ∈ initAppLocals ∧
    ∀ (f : Option XRFrame) (s : PCState),
      (render f s).2 = .error (.referenceError "camera") :=
  ⟨by decide, by decide, fun f s => rfl⟩

/-- C6 witness: the fault at a concrete frame and state. -/
theorem render_camera_reference_error_check :
    (render (some frameB) pcSample).2 = .error (.referenceError "camera") :=
  render_camera_reference_error.2.2 (some frameB) pcSample

/-- C7 — confirmed: when the underlying fetch rejects, each of the three
async loaders catches the failure (its promise still settles normally:
`.ok`), logs one `console.error` line, adds nothing to the scene, and yields
`undefined` (`none`) rather than a recoverable error object or a propagated
exception. -/
theorem loaders_catch_log_and_yield_absent (e : JsError) :
    ((setEnvironment (.error e)).result = .ok none ∧
      (setEnvironment (.error e)).log =
        ["An error occurred setting the environment"] ∧
      (setEnvironment (.error e)).sceneAdds = []) ∧
    ((loadReticle (.error e)).result = .ok none ∧
      (loadReticle (.error e)).log =
        ["An error occurred loading the reticle"] ∧
      (loadReticle (.error e)).sceneAdds = []) ∧
    ((loadChair (.error e)).toLoaderOutput.result = .ok none ∧
      (loadChair (.error e)).toLoaderOutput.log =
        ["An error occurred loading the chair"] ∧
      (loadChair (.error e)).toLoaderOutput.sceneAdds = []) :=
  ⟨⟨rfl, rfl, rfl⟩, ⟨rfl, rfl, rfl⟩, rfl, rfl, rfl⟩

/-- C7 witness: the three loaders at a concrete rejected fetch. -/
theorem loaders_catch_log_and_yield_absent_check :
    (setEnvironment (.error (.loadError "404"))).result = .ok none ∧
    (loadReticle (.error (.loadError "404"))).result = .ok none ∧
    (loadChair (.error (.loadError "404"))).toLoaderOutput.result = .ok none := by
  obtain ⟨h1, h2, h3⟩ := loaders_catch_log_and_yield_absent (.loadError "404")
  exact ⟨h1.1, h2.1, h3.1⟩

/-- C8 — confirmed: `initAR` wraps no handler around
`await navigator.xr.requestSession(...)` (`app.js` line 178), so a rejected
session request rethrows out of `initAR`, and its caller — the `.ar-button`
click handler, which neither `await`s nor `.catch`es the call (line 208) —
lets it surface as an unhandled promise rejection. -/
theorem initAR_rejection_propagates (e : JsError) (g : AppState) :
    initAR (.error e) g = .error e ∧
    (clickHandler (.error e) g).2 = some e :=
  ⟨rfl, rfl⟩

/-- C8 witness: a concrete rejected session request. -/
theorem initAR_rejection_propagates_check :
    initAR (.error (.loadError "NotSupportedError")) appStart =
      .error (.loadError "NotSupportedError") ∧
    (clickHandler (.error (.loadError "NotSupportedError")) appStart).2 =
      some (.loadError "NotSupportedError") :=
  initAR_rejection_propagates (.loadError "NotSupportedError") appStart

/-- C9 — counterexample to the claim as stated: the chair's pose is NOT
assigned at most once.  From `pcSample` (chair loaded, reticle visible at
pose `mA`, source held, no session end in the trace), a first `select` places
the chair at translation (1,0,0); after one more frame moves the reticle to
pose `mB`, a second `select` re-assigns the chair's position to (2,0,0) —a
later event updated the pose while the object remained in the scene. -/
theorem onSelect_pose_reassigned_by_second_selection :
    (pcRun [.select] pcSample).chair.map Object3D.position = some ⟨1, 0, 0⟩ ∧
    (pcRun [.select, .frame frameB, .select] pcSample).chair.map
        Object3D.position = some ⟨2, 0, 0⟩ ∧
    (⟨1, 0, 0⟩ : Vector3) ≠ ⟨2, 0, 0⟩ :=
  ⟨rfl, rfl, by decide⟩

/-- C9 — the amended claim: the chair's pose is assigned at EVERY selection
satisfying the placement preconditions (chair reference set, reticle
visible), each time from the reticle's then-current matrix; a later
qualifying selection therefore re-places the object. -/
theorem onSelect_places_at_every_qualifying_selection (s : PCState)
    (c : Object3D) (h1 : s.chair = some c) (h2 : s.reticle.visible = true) :
    ∃ c2, (onSelect s).chair = some c2 ∧
      c2.position = setFromMatrixPosition s.reticle.matrix ∧
      c2.visible = true :=
  ⟨{ c with position := setFromMatrixPosition s.reticle.matrix, visible := true },
   by simp [onSelect, h1, h2], rfl, rfl⟩

/-- C9 witness for the amended claim: a qualifying selection at `pcSample`. -/
theorem onSelect_places_at_every_qualifying_selection_check :
    ∃ c2, (onSelect pcSample).chair = some c2 ∧
      c2.position = setFromMatrixPosition pcSample.reticle.matrix ∧
      c2.visible = true :=
  onSelect_places_at_every_qualifying_selection pcSample sampleChair rfl rfl

/-- C10 — confirmed: a selection event touches only the chair's position
(copied from the translation column of the reticle's matrix) and its
visibility flag; the chair's rotation, scale and stored matrix, the reticle,
and every other scene object are left unchanged. -/
theorem onSelect_modifies_only_position_and_visibility (s : PCState)
    (c : Object3D) (h : s.chair = some c) :
    (s.reticle.visible = true →
        (onSelect s).chair = some { c with
          position := setFromMatrixPosition s.reticle.matrix,
          visible := true }) ∧
    (s.reticle.visible = false → (onSelect s).chair = some c) ∧
    (∀ c2, (onSelect s).chair = some c2 →
        c2.rotation = c.rotation ∧ c2.scale = c.scale ∧ c2.matrix = c.matrix) ∧
    (onSelect s).reticle = s.reticle ∧
    (onSelect s).otherSceneObjects = s.otherSceneObjects ∧
    (onSelect s).hitTestSource = s.hitTestSource ∧
    (onSelect s).hitTestSourceRequested = s.hitTestSourceRequested := by
  cases hv : s.reticle.visible with
  | false =>
      refine ⟨by simp [hv], ?_, ?_, ?_, ?_, ?_, ?_⟩ <;>
        simp [onSelect, h, hv]
  | true =>
      refine ⟨?_, by simp [hv], ?_, ?_, ?_, ?_, ?_⟩ <;>
        simp [onSelect, h, hv]

/-- C10 witness: the frame conditions at `pcSample`. -/
theorem onSelect_modifies_only_position_and_visibility_check :
    (onSelect pcSample).chair = some { sampleChair with
      position := setFromMatrixPosition pcSample.reticle.matrix,
      visible := true } ∧
    (onSelect pcSample).reticle = pcSample.reticle ∧
    (onSelect pcSample).otherSceneObjects = pcSample.otherSceneObjects := by
  obtain ⟨h1, _, _, h4, h5, _⟩ :=
    onSelect_modifies_only_position_and_visibility pcSample sampleChair rfl
  exact ⟨h1 rfl, h4, h5⟩

end ArShop
